import Mathlib

/-!
Verification of the keyboard-middleware event pipeline.

Shallow embedding of the Rust sources:
- `src/config.rs` : key codes, actions, layers, per-keyboard overrides,
  password loading, config save;
- `src/event_processor/actions/doubletap.rs` : the double-tap (DT)
  processor state machine;
- `src/niri.rs` : game-mode detection from window focus info.

`std::time::Instant` is modelled as a `Nat` millisecond timestamp passed
explicitly to each operation; `HashMap` is modelled as an association list
with replace-on-insert semantics; filesystem reads are modelled by passing
the (optional) file content as an argument.
-/

set_option maxHeartbeats 1000000

namespace KeyboardMiddleware

/-- QMK-inspired keycode enum, from `src/config.rs` (`enum KeyCode`). -/
inductive KeyCode where
  | KC_A | KC_B | KC_C | KC_D | KC_E | KC_F | KC_G | KC_H | KC_I | KC_J
  | KC_K | KC_L | KC_M | KC_N | KC_O | KC_P | KC_Q | KC_R | KC_S | KC_T
  | KC_U | KC_V | KC_W | KC_X | KC_Y | KC_Z
  | KC_1 | KC_2 | KC_3 | KC_4 | KC_5 | KC_6 | KC_7 | KC_8 | KC_9 | KC_0
  | KC_LCTL | KC_LSFT | KC_LALT | KC_LGUI | KC_LCMD
  | KC_RCTL | KC_RSFT | KC_RALT | KC_RGUI | KC_RCMD
  | KC_ESC | KC_CAPS | KC_TAB | KC_SPC | KC_ENT | KC_BSPC | KC_DEL
  | KC_GRV | KC_MINS | KC_EQL | KC_LBRC | KC_RBRC | KC_BSLS | KC_SCLN
  | KC_QUOT | KC_COMM | KC_DOT | KC_SLSH
  | KC_LEFT | KC_DOWN | KC_UP | KC_RGHT
  | KC_F1 | KC_F2 | KC_F3 | KC_F4 | KC_F5 | KC_F6 | KC_F7 | KC_F8
  | KC_F9 | KC_F10 | KC_F11 | KC_F12 | KC_F13 | KC_F14 | KC_F15 | KC_F16
  | KC_F17 | KC_F18 | KC_F19 | KC_F20 | KC_F21 | KC_F22 | KC_F23 | KC_F24
  | KC_PGUP | KC_PGDN | KC_HOME | KC_END | KC_INS | KC_PSCR
  | KC_KP_0 | KC_KP_1 | KC_KP_2 | KC_KP_3 | KC_KP_4 | KC_KP_5 | KC_KP_6
  | KC_KP_7 | KC_KP_8 | KC_KP_9 | KC_KP_SLASH | KC_KP_ASTERISK
  | KC_KP_MINUS | KC_KP_PLUS | KC_KP_ENTER | KC_KP_DOT | KC_NUM_LOCK
  | KC_MUTE | KC_VOL_UP | KC_VOL_DN | KC_MEDIA_PLAY_PAUSE | KC_MEDIA_STOP
  | KC_MEDIA_NEXT_TRACK | KC_MEDIA_PREV_TRACK | KC_MEDIA_SELECT
  | KC_PWR | KC_SLEP | KC_WAKE | KC_CALC | KC_MY_COMP
  | KC_WWW_SEARCH | KC_WWW_HOME | KC_WWW_BACK | KC_WWW_FORWARD
  | KC_WWW_STOP | KC_WWW_REFRESH | KC_WWW_FAVORITES
  | KC_SCRL | KC_PAUS
  | KC_APP | KC_MENU
  | KC_BRIU | KC_BRID | KC_DISPLAY_OFF | KC_WLAN | KC_BLUETOOTH
  | KC_KEYBOARD_LAYOUT
  | KC_INTL_BACKSLASH | KC_INTL_YEN | KC_INTL_RO
  deriving DecidableEq, Repr

/-- Layer identifier, from `src/config.rs` (`struct Layer(pub String)`). -/
structure Layer where
  name : String
  deriving DecidableEq, Repr

/-- Key action, from `src/config.rs` (`enum Action`). -/
inductive Action where
  | Key (kc : KeyCode)
  | HR (tap hold : KeyCode)
  | OVERLOAD (tap hold : KeyCode)
  | TO (layer : Layer)
  | Socd (this_key opposing_key : KeyCode)
  | Password (id : String)
  deriving DecidableEq, Repr

/-- Game mode detection methods, from `src/config.rs` (`enum DetectionMethod`). -/
inductive DetectionMethod where
  | GamescopeAppId
  | SteamAppPrefix
  | IsGameEnvVar
  | ProcessTreeWalk
  deriving DecidableEq, Repr

/-- Association-list lookup, modelling `HashMap::get`. -/
def lookupKey {α β : Type} [DecidableEq α] : List (α × β) → α → Option β
  | [], _ => none
  | (k, v) :: rest, key => if k = key then some v else lookupKey rest key

/-- Association-list key removal, modelling `HashMap::remove`. -/
def removeKey {α β : Type} [DecidableEq α] : List (α × β) → α → List (α × β)
  | [], _ => []
  | (k, v) :: rest, key =>
      if k = key then removeKey rest key else (k, v) :: removeKey rest key

/-- Association-list insert with replacement, modelling `HashMap::insert`. -/
def insertKey {α β : Type} [DecidableEq α] (l : List (α × β)) (key : α) (v : β) :
    List (α × β) :=
  (key, v) :: removeKey l key

/-- In-place update of an existing entry, modelling mutation through
`HashMap::get_mut`. -/
def updateKey {α β : Type} [DecidableEq α] (l : List (α × β)) (key : α) (v : β) :
    List (α × β) :=
  l.map (fun e => if e.1 = key then (key, v) else e)

/-- Layer configuration, from `src/config.rs` (`struct LayerConfig`). -/
structure LayerConfig where
  remaps : List (KeyCode × Action)
  deriving DecidableEq, Repr

/-- Game mode configuration, from `src/config.rs` (`struct GameMode`). -/
structure GameMode where
  remaps : List (KeyCode × Action)
  deriving DecidableEq, Repr

/-- `GameMode::auto_detect_enabled`, from `src/config.rs`. -/
def GameMode.auto_detect_enabled : Bool := true

/-- `GameMode::detection_methods`, from `src/config.rs`. -/
def GameMode.detection_methods : List DetectionMethod :=
  [DetectionMethod.GamescopeAppId, DetectionMethod.SteamAppPrefix,
   DetectionMethod.IsGameEnvVar, DetectionMethod.ProcessTreeWalk]

/-- `GameMode::process_tree_depth`, from `src/config.rs`. -/
def GameMode.process_tree_depth : Nat := 10

/-- Keymap override, from `src/config.rs` (`struct KeymapOverride`). -/
structure KeymapOverride where
  base_remaps : Option (List (KeyCode × Action))
  layers : Option (List (Layer × LayerConfig))
  game_mode_remaps : Option (List (KeyCode × Action))
  deriving DecidableEq, Repr

/-- Settings override, from `src/config.rs` (`struct SettingsOverride`). -/
structure SettingsOverride where
  tapping_term_ms : Option Nat
  double_tap_window_ms : Option Nat
  deriving DecidableEq, Repr

/-- Per-keyboard override, from `src/config.rs` (`struct KeyboardOverride`). -/
structure KeyboardOverride where
  keymap : Option KeymapOverride
  settings : Option SettingsOverride
  deriving DecidableEq, Repr

/-- Rust's `str::trim`: the string with leading and trailing whitespace
removed. -/
def rustTrim (s : String) : String :=
  String.mk
    (((s.data.dropWhile Char.isWhitespace).reverse.dropWhile
        Char.isWhitespace).reverse)

/-- `Passwords::load`, from `src/config.rs`. The filesystem is modelled by
passing the password file's content: `none` when `path.exists()` is false,
`some content` otherwise. The `Except` error component models the
`anyhow::Result` error case (which the function never produces once the
content is available). -/
def Passwords.load (file_content : Option String) : Except String (Option String) :=
  match file_content with
  | none => Except.ok none
  | some content =>
      let trimmed := rustTrim content
      if trimmed.data.isEmpty then Except.ok none
      else Except.ok (some trimmed)

/-- Main configuration structure, from `src/config.rs` (`struct Config`). -/
structure Config where
  tapping_term_ms : Nat
  double_tap_window_ms : Option Nat
  enabled_keyboards : Option (List String)
  remaps : List (KeyCode × Action)
  layers : List (Layer × LayerConfig)
  game_mode : GameMode
  keyboard_overrides : List (String × KeyboardOverride)
  deriving DecidableEq, Repr

/-- `Config::for_keyboard`, from `src/config.rs`: start from a clone of the
whole config, then apply each `Some` override field. -/
def Config.for_keyboard (c : Config) (keyboard_id : String) : Config :=
  let config := c
  match lookupKey c.keyboard_overrides keyboard_id with
  | none => config
  | some override_cfg =>
      let config :=
        match override_cfg.settings with
        | none => config
        | some settings =>
            let config :=
              match settings.tapping_term_ms with
              | some term => { config with tapping_term_ms := term }
              | none => config
            match settings.double_tap_window_ms with
            | some window => { config with double_tap_window_ms := some window }
            | none => config
      let config :=
        match override_cfg.keymap with
        | none => config
        | some keymap =>
            let config :=
              match keymap.base_remaps with
              | some base => { config with remaps := base }
              | none => config
            let config :=
              match keymap.layers with
              | some layers => { config with layers := layers }
              | none => config
            match keymap.game_mode_remaps with
            | some game => { config with game_mode := { remaps := game } }
            | none => config
      config

/-- `Config::save`, from `src/config.rs`: serialize the whole config and
write it to `path`. The serializer (`ron::ser::to_string_pretty`) is an
external collaborator, modelled as a function argument; the filesystem is
modelled as a map from path to content, returned updated. -/
def Config.save (ser : Config → String) (c : Config) (path : String)
    (fs : String → Option String) : String → Option String :=
  fun p => if p = path then some (ser c) else fs p

/-- `Config::save_enabled_keyboards_only`, from `src/config.rs`: the body
just calls `self.save(path)`. -/
def Config.save_enabled_keyboards_only (ser : Config → String) (c : Config)
    (path : String) (fs : String → Option String) : String → Option String :=
  Config.save ser c path fs

/-! ### Double-tap processor, from `src/event_processor/actions/doubletap.rs` -/

/-- State of a double-tap key (`enum DtState`). -/
inductive DtState where
  | FirstPress
  | WaitingSecondTap
  | DoubleTapDetected
  deriving DecidableEq, Repr

/-- Double-tap key tracking (`struct DtKey`). `Instant` fields are `Nat`
millisecond timestamps. -/
structure DtKey where
  keycode : KeyCode
  tap_key : KeyCode
  double_tap_key : KeyCode
  first_press_at : Nat
  first_release_at : Option Nat
  state : DtState
  deriving DecidableEq, Repr

/-- `DtKey::new`; `Instant::now()` is the explicit `now` argument. -/
def DtKey.new (now : Nat) (keycode tap_key double_tap_key : KeyCode) : DtKey :=
  { keycode := keycode
    tap_key := tap_key
    double_tap_key := double_tap_key
    first_press_at := now
    first_release_at := none
    state := DtState.FirstPress }

/-- `DtKey::elapsed_since_first_press` at time `now`. -/
def DtKey.elapsed_since_first_press (k : DtKey) (now : Nat) : Nat :=
  now - k.first_press_at

/-- `DtKey::elapsed_since_first_release` at time `now`. -/
def DtKey.elapsed_since_first_release (k : DtKey) (now : Nat) : Option Nat :=
  k.first_release_at.map (fun t => now - t)

/-- Result of DT processing (`enum DtResolution`). -/
inductive DtResolution where
  | SingleTap (kc : KeyCode)
  | DoubleTap (kc : KeyCode)
  | Undecided
  deriving DecidableEq, Repr

/-- Double-Tap processor configuration (`struct DtConfig`). -/
structure DtConfig where
  double_tap_window_ms : Nat
  deriving DecidableEq, Repr

/-- `impl Default for DtConfig`. -/
def DtConfig.default : DtConfig :=
  { double_tap_window_ms := 250 }

/-- Double-Tap processor (`struct DtProcessor`). -/
structure DtProcessor where
  config : DtConfig
  tracked_keys : List (KeyCode × DtKey)
  deriving DecidableEq, Repr

/-- `DtProcessor::new`. -/
def DtProcessor.new (config : DtConfig) : DtProcessor :=
  { config := config, tracked_keys := [] }

/-- `DtProcessor::on_press` at time `now`: returns the updated processor and
the resolution. A second press in `WaitingSecondTap` within the window is a
double tap; otherwise any stale entry is removed and tracking restarts. -/
def DtProcessor.on_press (p : DtProcessor) (now : Nat)
    (keycode tap_key double_tap_key : KeyCode) : DtProcessor × DtResolution :=
  match lookupKey p.tracked_keys keycode with
  | some dt_key =>
      if dt_key.state = DtState.WaitingSecondTap then
        match dt_key.elapsed_since_first_release now with
        | some elapsed =>
            if elapsed ≤ p.config.double_tap_window_ms then
              ({ p with tracked_keys :=
                   (updateKey p.tracked_keys keycode
                     ({ dt_key with state := DtState.DoubleTapDetected })) },
               DtResolution.DoubleTap dt_key.double_tap_key)
            else
              ({ p with tracked_keys :=
                   (insertKey (removeKey p.tracked_keys keycode) keycode
                     (DtKey.new now keycode tap_key double_tap_key)) },
               DtResolution.Undecided)
        | none =>
            ({ p with tracked_keys :=
                 (insertKey (removeKey p.tracked_keys keycode) keycode
                   (DtKey.new now keycode tap_key double_tap_key)) },
             DtResolution.Undecided)
      else
        ({ p with tracked_keys :=
             (insertKey (removeKey p.tracked_keys keycode) keycode
               (DtKey.new now keycode tap_key double_tap_key)) },
         DtResolution.Undecided)
  | none =>
      ({ p with tracked_keys :=
           (insertKey p.tracked_keys keycode
             (DtKey.new now keycode tap_key double_tap_key)) },
       DtResolution.Undecided)

/-- `DtProcessor::on_release` at time `now`. -/
def DtProcessor.on_release (p : DtProcessor) (now : Nat) (keycode : KeyCode) :
    DtProcessor × DtResolution :=
  match lookupKey p.tracked_keys keycode with
  | some dt_key =>
      match dt_key.state with
      | DtState.FirstPress =>
          ({ p with tracked_keys :=
               (updateKey p.tracked_keys keycode
                 ({ dt_key with state := DtState.WaitingSecondTap,
                                first_release_at := some now })) },
           DtResolution.Undecided)
      | DtState.DoubleTapDetected =>
          ({ p with tracked_keys := removeKey p.tracked_keys keycode },
           DtResolution.Undecided)
      | _ => (p, DtResolution.Undecided)
  | none => (p, DtResolution.Undecided)

/-- The expiry test of `DtProcessor::check_timeouts` for one tracked key:
a key waiting for its second tap expires when the release-relative window
has strictly passed; a key still in `FirstPress` expires when the
press-relative window has strictly passed. -/
def DtKey.is_expired (dt_key : DtKey) (now window_ms : Nat) : Bool :=
  match dt_key.state with
  | DtState.WaitingSecondTap =>
      match dt_key.elapsed_since_first_release now with
      | some elapsed => decide (elapsed > window_ms)
      | none => false
  | DtState.FirstPress =>
      decide (dt_key.elapsed_since_first_press now > window_ms)
  | _ => false

/-- `DtProcessor::check_timeouts` at time `now`: collect expired keys, then
remove each and emit a `SingleTap` resolution for it. -/
def DtProcessor.check_timeouts (p : DtProcessor) (now : Nat) :
    DtProcessor × List (KeyCode × DtResolution) :=
  let window_ms := p.config.double_tap_window_ms
  let expired : List KeyCode :=
    (p.tracked_keys.filter (fun e => (e.2).is_expired now window_ms)).map
      (fun e => e.1)
  let final :=
    expired.foldl
      (fun (acc : List (KeyCode × DtKey) × List (KeyCode × DtResolution)) keycode =>
        match lookupKey acc.1 keycode with
        | some dt_key =>
            (removeKey acc.1 keycode,
             acc.2 ++ [(keycode, DtResolution.SingleTap dt_key.tap_key)])
        | none => acc)
      (p.tracked_keys, [])
  ({ p with tracked_keys := final.1 }, final.2)

/-- `DtProcessor::tracked_count`. -/
def DtProcessor.tracked_count (p : DtProcessor) : Nat :=
  p.tracked_keys.length

/-! ### Game-mode detection, from `src/niri.rs` -/

/-- Focused window info (`struct WindowInfo`). -/
structure WindowInfo where
  app_id : Option String
  pid : Option Nat
  deriving DecidableEq, Repr

/-- `should_enable_gamemode`, from `src/niri.rs`. The two `/proc`-reading
helpers `check_is_game_env` and `check_process_tree` are external probes,
modelled as function arguments. -/
def should_enable_gamemode (check_is_game_env : Nat → Bool)
    (check_process_tree : Nat → Bool × Bool) (window_info : WindowInfo) : Bool :=
  if window_info.app_id = some "gamescope" then true
  else
    match window_info.pid with
    | some pid =>
        if check_is_game_env pid then true
        else
          let r := check_process_tree pid
          r.1 || r.2
    | none => false

/-! ### Scenario states for the DT state machine

A single DT key's cycle, starting from a fresh processor: first press at
`t0`, first release at `t1`. -/

/-- Processor state after the first press of `kc` at time `t0`. -/
def dtAfterFirstPress (cfg : DtConfig) (kc tap dbl : KeyCode) (t0 : Nat) :
    DtProcessor :=
  ((DtProcessor.new cfg).on_press t0 kc tap dbl).1

/-- Processor state after first press at `t0` and first release at `t1`. -/
def dtAfterFirstRelease (cfg : DtConfig) (kc tap dbl : KeyCode) (t0 t1 : Nat) :
    DtProcessor :=
  ((dtAfterFirstPress cfg kc tap dbl t0).on_release t1 kc) |>.1

/-- The tracked entry of a key waiting for its second tap. -/
def dtWaitingKey (kc tap dbl : KeyCode) (t0 t1 : Nat) : DtKey :=
  { keycode := kc, tap_key := tap, double_tap_key := dbl,
    first_press_at := t0, first_release_at := some t1,
    state := DtState.WaitingSecondTap }

theorem dtAfterFirstPress_eq (cfg : DtConfig) (kc tap dbl : KeyCode) (t0 : Nat) :
    dtAfterFirstPress cfg kc tap dbl t0 =
      { config := cfg, tracked_keys := [(kc, DtKey.new t0 kc tap dbl)] } :=
  rfl

theorem dtAfterFirstRelease_eq (cfg : DtConfig) (kc tap dbl : KeyCode)
    (t0 t1 : Nat) :
    dtAfterFirstRelease cfg kc tap dbl t0 t1 =
      { config := cfg, tracked_keys := [(kc, dtWaitingKey kc tap dbl t0 t1)] } := by
  simp [dtAfterFirstRelease, dtAfterFirstPress_eq, DtProcessor.on_release,
    lookupKey, updateKey, DtKey.new, dtWaitingKey]

theorem dt_on_press_second_within_window (cfg : DtConfig) (kc tap dbl : KeyCode)
    (t0 t1 t2 : Nat) (hwin : t2 - t1 ≤ cfg.double_tap_window_ms) :
    (dtAfterFirstRelease cfg kc tap dbl t0 t1).on_press t2 kc tap dbl =
      ({ config := cfg,
         tracked_keys := [(kc,
           { dtWaitingKey kc tap dbl t0 t1 with
               state := DtState.DoubleTapDetected })] },
       DtResolution.DoubleTap dbl) := by
  rw [dtAfterFirstRelease_eq]
  simp [DtProcessor.on_press, lookupKey, updateKey,
    DtKey.elapsed_since_first_release, dtWaitingKey, hwin]

theorem dt_check_waiting_within_window (cfg : DtConfig) (kc tap dbl : KeyCode)
    (t0 t1 t : Nat) (h : t - t1 ≤ cfg.double_tap_window_ms) :
    (dtAfterFirstRelease cfg kc tap dbl t0 t1).check_timeouts t =
      (dtAfterFirstRelease cfg kc tap dbl t0 t1, []) := by
  have h2 : ¬ (cfg.double_tap_window_ms < t - t1) := Nat.not_lt.mpr h
  rw [dtAfterFirstRelease_eq]
  simp [DtProcessor.check_timeouts, DtKey.is_expired,
    DtKey.elapsed_since_first_release, dtWaitingKey, h2]

theorem dt_check_waiting_expired (cfg : DtConfig) (kc tap dbl : KeyCode)
    (t0 t1 t : Nat) (h : cfg.double_tap_window_ms < t - t1) :
    (dtAfterFirstRelease cfg kc tap dbl t0 t1).check_timeouts t =
      ({ config := cfg, tracked_keys := [] },
       [(kc, DtResolution.SingleTap tap)]) := by
  rw [dtAfterFirstRelease_eq]
  simp [DtProcessor.check_timeouts, DtKey.is_expired,
    DtKey.elapsed_since_first_release, dtWaitingKey, lookupKey, removeKey, h]

theorem dt_check_first_press_within_window (cfg : DtConfig)
    (kc tap dbl : KeyCode) (t0 t : Nat)
    (h : t - t0 ≤ cfg.double_tap_window_ms) :
    (dtAfterFirstPress cfg kc tap dbl t0).check_timeouts t =
      (dtAfterFirstPress cfg kc tap dbl t0, []) := by
  have h2 : ¬ (cfg.double_tap_window_ms < t - t0) := Nat.not_lt.mpr h
  rw [dtAfterFirstPress_eq]
  simp [DtProcessor.check_timeouts, DtKey.is_expired,
    DtKey.elapsed_since_first_press, DtKey.new, h2]

theorem dt_check_first_press_expired (cfg : DtConfig) (kc tap dbl : KeyCode)
    (t0 t : Nat) (h : cfg.double_tap_window_ms < t - t0) :
    (dtAfterFirstPress cfg kc tap dbl t0).check_timeouts t =
      ({ config := cfg, tracked_keys := [] },
       [(kc, DtResolution.SingleTap tap)]) := by
  rw [dtAfterFirstPress_eq]
  simp [DtProcessor.check_timeouts, DtKey.is_expired,
    DtKey.elapsed_since_first_press, DtKey.new, lookupKey, removeKey, h]

theorem dt_check_double_detected (cfg : DtConfig) (kc tap dbl : KeyCode)
    (t0 t1 t2 t : Nat) (hwin : t2 - t1 ≤ cfg.double_tap_window_ms) :
    (((dtAfterFirstRelease cfg kc tap dbl t0 t1).on_press t2 kc tap dbl).1.check_timeouts t) =
      (((dtAfterFirstRelease cfg kc tap dbl t0 t1).on_press t2 kc tap dbl).1, []) := by
  rw [dt_on_press_second_within_window cfg kc tap dbl t0 t1 t2 hwin]
  simp [DtProcessor.check_timeouts, DtKey.is_expired, dtWaitingKey]

theorem dt_check_empty (cfg : DtConfig) (t : Nat) :
    (DtProcessor.mk cfg []).check_timeouts t = (DtProcessor.mk cfg [], []) := by
  simp [DtProcessor.check_timeouts]

/-! ### Claim theorems -/

/-- C1: Double-tap exclusivity. For a DT key pressed at `t0`, released at
`t1`, and pressed again at `t2` with `t2 - t1` within the double-tap
window, `on_press` returns `DoubleTap dbl` immediately; and no
`check_timeouts` call during the cycle returns a `SingleTap` for the key:
not while the key is held within the window, not while waiting before the
second press, and never after the double tap was detected. -/
theorem dt_double_tap_exclusivity (cfg : DtConfig) (kc tap dbl : KeyCode)
    (t0 t1 t2 : Nat) (hwin : t2 - t1 ≤ cfg.double_tap_window_ms) :
    ((dtAfterFirstRelease cfg kc tap dbl t0 t1).on_press t2 kc tap dbl).2 =
        DtResolution.DoubleTap dbl
    ∧ (∀ t, t - t0 ≤ cfg.double_tap_window_ms →
        ((dtAfterFirstPress cfg kc tap dbl t0).check_timeouts t).2 = [])
    ∧ (∀ t, t ≤ t2 →
        ((dtAfterFirstRelease cfg kc tap dbl t0 t1).check_timeouts t).2 = [])
    ∧ (∀ t,
        (((dtAfterFirstRelease cfg kc tap dbl t0 t1).on_press t2 kc tap dbl).1.check_timeouts t).2 = []) := by
  refine ⟨?_, ?_, ?_, ?_⟩
  · rw [dt_on_press_second_within_window cfg kc tap dbl t0 t1 t2 hwin]
  · intro t ht
    rw [dt_check_first_press_within_window cfg kc tap dbl t0 t ht]
  · intro t ht
    have h : t - t1 ≤ cfg.double_tap_window_ms :=
      le_trans (Nat.sub_le_sub_right ht t1) hwin
    rw [dt_check_waiting_within_window cfg kc tap dbl t0 t1 t h]
  · intro t
    rw [dt_check_double_detected cfg kc tap dbl t0 t1 t2 t hwin]

theorem dt_double_tap_exclusivity_witness :
    ((dtAfterFirstRelease DtConfig.default KeyCode.KC_X KeyCode.KC_X
        KeyCode.KC_F11 0 20).on_press 100 KeyCode.KC_X KeyCode.KC_X
        KeyCode.KC_F11).2 = DtResolution.DoubleTap KeyCode.KC_F11
    ∧ ((dtAfterFirstPress DtConfig.default KeyCode.KC_X KeyCode.KC_X
        KeyCode.KC_F11 0).check_timeouts 10).2 = []
    ∧ ((dtAfterFirstRelease DtConfig.default KeyCode.KC_X KeyCode.KC_X
        KeyCode.KC_F11 0 20).check_timeouts 90).2 = []
    ∧ (((dtAfterFirstRelease DtConfig.default KeyCode.KC_X KeyCode.KC_X
        KeyCode.KC_F11 0 20).on_press 100 KeyCode.KC_X KeyCode.KC_X
        KeyCode.KC_F11).1.check_timeouts 1000).2 = [] := by
  have h := dt_double_tap_exclusivity DtConfig.default KeyCode.KC_X
    KeyCode.KC_X KeyCode.KC_F11 0 20 100 (by decide)
  exact ⟨h.1, h.2.1 10 (by decide), h.2.2.1 90 (by decide), h.2.2.2 1000⟩

/-- C2: DT timeout. A DT key pressed once at `t0` and released at `t1` with
no second press: `check_timeouts` returns nothing while the window has not
strictly passed; once the elapsed time since the release strictly exceeds
the window it returns exactly the one resolution
`(kc, SingleTap tap)`, removes the key from tracking, and any later
`check_timeouts` returns nothing again. -/
theorem dt_single_tap_timeout (cfg : DtConfig) (kc tap dbl : KeyCode)
    (t0 t1 : Nat) :
    (∀ t, t - t1 ≤ cfg.double_tap_window_ms →
        ((dtAfterFirstRelease cfg kc tap dbl t0 t1).check_timeouts t).2 = [])
    ∧ (∀ t, cfg.double_tap_window_ms < t - t1 →
        ((dtAfterFirstRelease cfg kc tap dbl t0 t1).check_timeouts t).2 =
          [(kc, DtResolution.SingleTap tap)]
        ∧ lookupKey ((dtAfterFirstRelease cfg kc tap dbl t0 t1).check_timeouts t).1.tracked_keys kc = none)
    ∧ (∀ t u, cfg.double_tap_window_ms < t - t1 →
        (((dtAfterFirstRelease cfg kc tap dbl t0 t1).check_timeouts t).1.check_timeouts u).2 = []) := by
  refine ⟨?_, ?_, ?_⟩
  · intro t ht
    rw [dt_check_waiting_within_window cfg kc tap dbl t0 t1 t ht]
  · intro t ht
    rw [dt_check_waiting_expired cfg kc tap dbl t0 t1 t ht]
    exact ⟨rfl, rfl⟩
  · intro t u ht
    rw [dt_check_waiting_expired cfg kc tap dbl t0 t1 t ht]
    rw [dt_check_empty]

theorem dt_single_tap_timeout_witness :
    ((dtAfterFirstRelease DtConfig.default KeyCode.KC_X KeyCode.KC_X
        KeyCode.KC_F11 0 20).check_timeouts 270).2 = []
    ∧ ((dtAfterFirstRelease DtConfig.default KeyCode.KC_X KeyCode.KC_X
        KeyCode.KC_F11 0 20).check_timeouts 271).2 =
        [(KeyCode.KC_X, DtResolution.SingleTap KeyCode.KC_X)]
    ∧ (((dtAfterFirstRelease DtConfig.default KeyCode.KC_X KeyCode.KC_X
        KeyCode.KC_F11 0 20).check_timeouts 271).1.check_timeouts 500).2 = [] := by
  have h := dt_single_tap_timeout DtConfig.default KeyCode.KC_X KeyCode.KC_X
    KeyCode.KC_F11 0 20
  exact ⟨h.1 270 (by decide), (h.2.1 271 (by decide)).1,
    h.2.2 271 500 (by decide)⟩

/-- C7: The default DT configuration sets `double_tap_window_ms` to 250. -/
theorem dt_config_default_window :
    DtConfig.default.double_tap_window_ms = 250 := rfl

/-- C10: Inclusive, gap-free window boundary. For a key waiting for its
second tap (released at `t1`), a second press at time `t` resolves as
`DoubleTap` exactly when `t - t1 ≤ window` (so the boundary
`t - t1 = window` is a double tap), `check_timeouts` at `t` resolves it as
`SingleTap` exactly when `window < t - t1`, and for every `t` exactly one
of the two resolutions applies. -/
theorem dt_window_boundary (cfg : DtConfig) (kc tap dbl : KeyCode)
    (t0 t1 t : Nat) :
    (((dtAfterFirstRelease cfg kc tap dbl t0 t1).on_press t kc tap dbl).2 =
        DtResolution.DoubleTap dbl ↔ t - t1 ≤ cfg.double_tap_window_ms)
    ∧ (((dtAfterFirstRelease cfg kc tap dbl t0 t1).check_timeouts t).2 =
        [(kc, DtResolution.SingleTap tap)] ↔
        cfg.double_tap_window_ms < t - t1)
    ∧ (((dtAfterFirstRelease cfg kc tap dbl t0 t1).on_press t kc tap dbl).2 =
        DtResolution.DoubleTap dbl ↔
        ¬ ((dtAfterFirstRelease cfg kc tap dbl t0 t1).check_timeouts t).2 =
          [(kc, DtResolution.SingleTap tap)]) := by
  have hpress : ((dtAfterFirstRelease cfg kc tap dbl t0 t1).on_press t kc tap dbl).2 =
      DtResolution.DoubleTap dbl ↔ t - t1 ≤ cfg.double_tap_window_ms := by
    constructor
    · intro h
      by_contra hc
      have hc2 : cfg.double_tap_window_ms < t - t1 := Nat.not_le.mp hc
      rw [dtAfterFirstRelease_eq] at h
      simp [DtProcessor.on_press, lookupKey, dtWaitingKey,
        DtKey.elapsed_since_first_release, Nat.not_le.mpr hc2] at h
    · intro h
      rw [dt_on_press_second_within_window cfg kc tap dbl t0 t1 t h]
  have hcheck : ((dtAfterFirstRelease cfg kc tap dbl t0 t1).check_timeouts t).2 =
      [(kc, DtResolution.SingleTap tap)] ↔ cfg.double_tap_window_ms < t - t1 := by
    constructor
    · intro h
      by_contra hc
      have hc2 : t - t1 ≤ cfg.double_tap_window_ms := Nat.not_lt.mp hc
      rw [dt_check_waiting_within_window cfg kc tap dbl t0 t1 t hc2] at h
      simp at h
    · intro h
      rw [dt_check_waiting_expired cfg kc tap dbl t0 t1 t h]
  refine ⟨hpress, hcheck, ?_⟩
  rw [hpress, hcheck, Nat.not_lt]

theorem dt_window_boundary_witness :
    ((dtAfterFirstRelease DtConfig.default KeyCode.KC_X KeyCode.KC_X
        KeyCode.KC_F11 0 20).on_press 270 KeyCode.KC_X KeyCode.KC_X
        KeyCode.KC_F11).2 = DtResolution.DoubleTap KeyCode.KC_F11
    ∧ ((dtAfterFirstRelease DtConfig.default KeyCode.KC_X KeyCode.KC_X
        KeyCode.KC_F11 0 20).check_timeouts 270).2 ≠
        [(KeyCode.KC_X, DtResolution.SingleTap KeyCode.KC_X)] := by
  have h := dt_window_boundary DtConfig.default KeyCode.KC_X KeyCode.KC_X
    KeyCode.KC_F11 0 20 270
  exact ⟨h.1.mpr (by decide), fun hc => absurd (h.2.1.mp hc) (by decide)⟩

/-- C3 counterexample: a DT key (window 250) pressed at 0 and still held at
time 300 is resolved by `check_timeouts` as `SingleTap KC_X` — the very
same resolution value produced for a completed single tap (press at 0,
release at 20, checked at 271) — the key is removed from tracking, and the
later physical release at 310 returns `Undecided` and changes nothing, so
no deferred tap-up is ever produced: the still-held resolution is not
distinguishable from the completed single-tap resolution. -/
theorem dt_still_held_counterexample :
    ((dtAfterFirstPress DtConfig.default KeyCode.KC_X KeyCode.KC_X
        KeyCode.KC_F11 0).check_timeouts 300).2 =
      [(KeyCode.KC_X, DtResolution.SingleTap KeyCode.KC_X)]
    ∧ ((dtAfterFirstRelease DtConfig.default KeyCode.KC_X KeyCode.KC_X
        KeyCode.KC_F11 0 20).check_timeouts 271).2 =
      [(KeyCode.KC_X, DtResolution.SingleTap KeyCode.KC_X)]
    ∧ ((dtAfterFirstPress DtConfig.default KeyCode.KC_X KeyCode.KC_X
        KeyCode.KC_F11 0).check_timeouts 300).1.tracked_keys = []
    ∧ (((dtAfterFirstPress DtConfig.default KeyCode.KC_X KeyCode.KC_X
        KeyCode.KC_F11 0).check_timeouts 300).1.on_release 310 KeyCode.KC_X) =
      (((dtAfterFirstPress DtConfig.default KeyCode.KC_X KeyCode.KC_X
        KeyCode.KC_F11 0).check_timeouts 300).1, DtResolution.Undecided) := by
  decide

/-- C3 amended: a DT key pressed at `t0` and still held when
`check_timeouts` runs at a time `t` strictly past the window is resolved as
`SingleTap tap` — the same resolution as a completed single tap, with no
held-tap deferral — the key is removed from tracking, and a later
`on_release` of the key returns `Undecided` and leaves the processor
unchanged. -/
theorem dt_still_held_single_tap (cfg : DtConfig) (kc tap dbl : KeyCode)
    (t0 t u : Nat) (h : cfg.double_tap_window_ms < t - t0) :
    ((dtAfterFirstPress cfg kc tap dbl t0).check_timeouts t).2 =
        [(kc, DtResolution.SingleTap tap)]
    ∧ ((dtAfterFirstPress cfg kc tap dbl t0).check_timeouts t).1.tracked_keys = []
    ∧ (((dtAfterFirstPress cfg kc tap dbl t0).check_timeouts t).1.on_release u kc) =
        (((dtAfterFirstPress cfg kc tap dbl t0).check_timeouts t).1,
         DtResolution.Undecided) := by
  rw [dt_check_first_press_expired cfg kc tap dbl t0 t h]
  exact ⟨rfl, rfl, rfl⟩

theorem dt_still_held_single_tap_witness :
    ((dtAfterFirstPress DtConfig.default KeyCode.KC_W KeyCode.KC_W
        KeyCode.KC_F12 0).check_timeouts 260).2 =
        [(KeyCode.KC_W, DtResolution.SingleTap KeyCode.KC_W)]
    ∧ ((dtAfterFirstPress DtConfig.default KeyCode.KC_W KeyCode.KC_W
        KeyCode.KC_F12 0).check_timeouts 260).1.tracked_keys = []
    ∧ (((dtAfterFirstPress DtConfig.default KeyCode.KC_W KeyCode.KC_W
        KeyCode.KC_F12 0).check_timeouts 260).1.on_release 400 KeyCode.KC_W) =
        (((dtAfterFirstPress DtConfig.default KeyCode.KC_W KeyCode.KC_W
          KeyCode.KC_F12 0).check_timeouts 260).1, DtResolution.Undecided) :=
  dt_still_held_single_tap DtConfig.default KeyCode.KC_W KeyCode.KC_W
    KeyCode.KC_F12 0 260 400 (by decide)

/-- C4 counterexample: after press at 0, release at 20, and a second press
at 100 (window 250), `on_press` returns `DoubleTap KC_F11`, yet the key is
still tracked (in state `DoubleTapDetected`) immediately afterwards — the
entry is not removed on the second press, contrary to the claim. -/
theorem dt_lifecycle_counterexample :
    ((dtAfterFirstRelease DtConfig.default KeyCode.KC_X KeyCode.KC_X
        KeyCode.KC_F11 0 20).on_press 100 KeyCode.KC_X KeyCode.KC_X
        KeyCode.KC_F11).2 = DtResolution.DoubleTap KeyCode.KC_F11
    ∧ ¬ (lookupKey ((dtAfterFirstRelease DtConfig.default KeyCode.KC_X
        KeyCode.KC_X KeyCode.KC_F11 0 20).on_press 100 KeyCode.KC_X
        KeyCode.KC_X KeyCode.KC_F11).1.tracked_keys KeyCode.KC_X = none) := by
  decide

/-- C4 amended: DtKey lifecycle. The tracking entry is created on the first
press; it is removed on timeout; on the second press within the window
`on_press` returns `DoubleTap` while the entry remains tracked in state
`DoubleTapDetected`; the entry is removed by the `on_release` that follows
the detected second press. -/
theorem dt_key_lifecycle (cfg : DtConfig) (kc tap dbl : KeyCode)
    (t0 t1 t2 t3 : Nat) (hwin : t2 - t1 ≤ cfg.double_tap_window_ms) :
    lookupKey (dtAfterFirstPress cfg kc tap dbl t0).tracked_keys kc =
        some (DtKey.new t0 kc tap dbl)
    ∧ (∀ t, cfg.double_tap_window_ms < t - t1 →
        lookupKey ((dtAfterFirstRelease cfg kc tap dbl t0 t1).check_timeouts t).1.tracked_keys kc = none)
    ∧ ((dtAfterFirstRelease cfg kc tap dbl t0 t1).on_press t2 kc tap dbl).2 =
        DtResolution.DoubleTap dbl
    ∧ lookupKey ((dtAfterFirstRelease cfg kc tap dbl t0 t1).on_press t2 kc tap dbl).1.tracked_keys kc =
        some ({ dtWaitingKey kc tap dbl t0 t1 with
                  state := DtState.DoubleTapDetected })
    ∧ lookupKey (((dtAfterFirstRelease cfg kc tap dbl t0 t1).on_press t2 kc tap dbl).1.on_release t3 kc).1.tracked_keys kc = none := by
  refine ⟨?_, ?_, ?_, ?_, ?_⟩
  · rw [dtAfterFirstPress_eq]
    simp [lookupKey]
  · intro t ht
    rw [dt_check_waiting_expired cfg kc tap dbl t0 t1 t ht]
    rfl
  · rw [dt_on_press_second_within_window cfg kc tap dbl t0 t1 t2 hwin]
  · rw [dt_on_press_second_within_window cfg kc tap dbl t0 t1 t2 hwin]
    simp [lookupKey]
  · rw [dt_on_press_second_within_window cfg kc tap dbl t0 t1 t2 hwin]
    simp [DtProcessor.on_release, lookupKey, removeKey, dtWaitingKey]

theorem dt_key_lifecycle_witness :
    lookupKey (dtAfterFirstPress DtConfig.default KeyCode.KC_Z KeyCode.KC_Z
        KeyCode.KC_F10 5).tracked_keys KeyCode.KC_Z =
      some (DtKey.new 5 KeyCode.KC_Z KeyCode.KC_Z KeyCode.KC_F10)
    ∧ lookupKey ((dtAfterFirstRelease DtConfig.default KeyCode.KC_Z
        KeyCode.KC_Z KeyCode.KC_F10 5 30).check_timeouts 281).1.tracked_keys
        KeyCode.KC_Z = none
    ∧ ((dtAfterFirstRelease DtConfig.default KeyCode.KC_Z KeyCode.KC_Z
        KeyCode.KC_F10 5 30).on_press 110 KeyCode.KC_Z KeyCode.KC_Z
        KeyCode.KC_F10).2 = DtResolution.DoubleTap KeyCode.KC_F10
    ∧ lookupKey (((dtAfterFirstRelease DtConfig.default KeyCode.KC_Z
        KeyCode.KC_Z KeyCode.KC_F10 5 30).on_press 110 KeyCode.KC_Z
        KeyCode.KC_Z KeyCode.KC_F10).1.on_release 130 KeyCode.KC_Z).1.tracked_keys
        KeyCode.KC_Z = none := by
  have h := dt_key_lifecycle DtConfig.default KeyCode.KC_Z KeyCode.KC_Z
    KeyCode.KC_F10 5 30 110 130 (by decide)
  exact ⟨h.1, h.2.1 281 (by decide), h.2.2.1, h.2.2.2.2⟩

/-- C5: Per-keyboard override framing. When `keyboard_id` has no entry in
`keyboard_overrides`, `for_keyboard` returns the original config
unchanged. When it has an entry, each field covered by a `Some` override
(`tapping_term_ms`, `double_tap_window_ms`, base remaps, layers, game-mode
remaps) takes the override value and every field without a `Some` override
— including `enabled_keyboards` and `keyboard_overrides`, which are never
overridden — keeps the original value. -/
theorem for_keyboard_frame (c : Config) (id : String) :
    (lookupKey c.keyboard_overrides id = none → c.for_keyboard id = c)
    ∧ (∀ ov, lookupKey c.keyboard_overrides id = some ov →
        (c.for_keyboard id).tapping_term_ms =
          ((ov.settings.bind fun s => s.tapping_term_ms).getD c.tapping_term_ms)
        ∧ (c.for_keyboard id).double_tap_window_ms =
          (((ov.settings.bind fun s => s.double_tap_window_ms).map some).getD
            c.double_tap_window_ms)
        ∧ (c.for_keyboard id).remaps =
          ((ov.keymap.bind fun k => k.base_remaps).getD c.remaps)
        ∧ (c.for_keyboard id).layers =
          ((ov.keymap.bind fun k => k.layers).getD c.layers)
        ∧ (c.for_keyboard id).game_mode.remaps =
          ((ov.keymap.bind fun k => k.game_mode_remaps).getD c.game_mode.remaps)
        ∧ (c.for_keyboard id).enabled_keyboards = c.enabled_keyboards
        ∧ (c.for_keyboard id).keyboard_overrides = c.keyboard_overrides) := by
  constructor
  · intro h
    simp [Config.for_keyboard, h]
  · intro ov h
    obtain ⟨keymap, settings⟩ := ov
    rcases settings with _ | ⟨_ | tt, _ | dw⟩ <;>
      rcases keymap with _ | ⟨_ | br, _ | ly, _ | gm⟩ <;>
      simp [Config.for_keyboard, h]

def sampleSettings : SettingsOverride :=
  { tapping_term_ms := some 150, double_tap_window_ms := some 300 }

def sampleKeymap : KeymapOverride :=
  { base_remaps := some [(KeyCode.KC_A, Action.Key KeyCode.KC_B)],
    layers := none, game_mode_remaps := none }

def sampleOverride : KeyboardOverride :=
  { keymap := some sampleKeymap, settings := some sampleSettings }

def sampleConfig : Config :=
  { tapping_term_ms := 200, double_tap_window_ms := none,
    enabled_keyboards := some ["kb1"],
    remaps := [(KeyCode.KC_C, Action.Key KeyCode.KC_D)],
    layers := [], game_mode := { remaps := [] },
    keyboard_overrides := [("kb1", sampleOverride)] }

theorem for_keyboard_frame_witness :
    sampleConfig.for_keyboard "other" = sampleConfig
    ∧ (sampleConfig.for_keyboard "kb1").tapping_term_ms = 150
    ∧ (sampleConfig.for_keyboard "kb1").double_tap_window_ms = some 300
    ∧ (sampleConfig.for_keyboard "kb1").remaps =
        [(KeyCode.KC_A, Action.Key KeyCode.KC_B)]
    ∧ (sampleConfig.for_keyboard "kb1").layers = sampleConfig.layers
    ∧ (sampleConfig.for_keyboard "kb1").game_mode.remaps =
        sampleConfig.game_mode.remaps
    ∧ (sampleConfig.for_keyboard "kb1").enabled_keyboards =
        sampleConfig.enabled_keyboards
    ∧ (sampleConfig.for_keyboard "kb1").keyboard_overrides =
        sampleConfig.keyboard_overrides := by
  have h1 := (for_keyboard_frame sampleConfig "other").1 (by decide)
  have h2 := (for_keyboard_frame sampleConfig "kb1").2 sampleOverride (by decide)
  refine ⟨h1, ?_, ?_, ?_, ?_, ?_, h2.2.2.2.2.2.1, h2.2.2.2.2.2.2⟩
  · exact h2.1.trans (by decide)
  · exact h2.2.1.trans (by decide)
  · exact h2.2.2.1.trans (by decide)
  · exact h2.2.2.2.1.trans (by decide)
  · exact h2.2.2.2.2.1.trans (by decide)

/-- C6: Missing password is not an error. `Passwords::load` — with the
password file's content modelled as `none` when the file does not exist —
returns `Ok(None)` when the file is missing, `Ok(None)` when the content
trims to the empty string, `Ok(Some trimmed)` when the trimmed content is
non-empty, and in every modelled case the result is an `Ok`, never an
`Err`. -/
theorem passwords_load_missing_not_error (content : String) :
    Passwords.load none = Except.ok none
    ∧ ((rustTrim content).data.isEmpty = true →
        Passwords.load (some content) = Except.ok none)
    ∧ ((rustTrim content).data.isEmpty = false →
        Passwords.load (some content) = Except.ok (some (rustTrim content)))
    ∧ (∀ fc : Option String, ∃ r, Passwords.load fc = Except.ok r) := by
  refine ⟨rfl, ?_, ?_, ?_⟩
  · intro h
    simp [Passwords.load, h]
  · intro h
    simp [Passwords.load, h]
  · intro fc
    match fc with
    | none => exact ⟨none, rfl⟩
    | some c =>
        by_cases h : (rustTrim c).data.isEmpty = true
        · exact ⟨none, by simp [Passwords.load, h]⟩
        · exact ⟨some (rustTrim c), by
            simp only [Bool.not_eq_true] at h
            simp [Passwords.load, h]⟩

theorem passwords_load_missing_not_error_witness :
    Passwords.load none = Except.ok none
    ∧ Passwords.load (some "  \n") = Except.ok none
    ∧ Passwords.load (some " hunter2\n") =
        Except.ok (some (rustTrim " hunter2\n")) := by
  have ha := (passwords_load_missing_not_error "  \n").2.1 (by decide)
  have hb := (passwords_load_missing_not_error " hunter2\n").2.2.1 (by decide)
  exact ⟨(passwords_load_missing_not_error "").1, ha, hb⟩

/-- C8: Game-mode detection ignores the steam_app prefix. For any window
with no PID (whatever the external `/proc` probes would report), the code
enables game mode exactly when the app id is literally `"gamescope"`; in
particular `"steam_app_123456"` — the input the test suite asserts enables
game mode — does not, even though `SteamAppPrefix` is listed among
`GameMode.detection_methods`. -/
theorem gamemode_ignores_steam_apps (env : Nat → Bool)
    (tree : Nat → Bool × Bool) :
    (∀ a : Option String,
        should_enable_gamemode env tree { app_id := a, pid := none } = true ↔
          a = some "gamescope")
    ∧ DetectionMethod.SteamAppPrefix ∈ GameMode.detection_methods
    ∧ should_enable_gamemode env tree
        { app_id := some "steam_app_123456", pid := none } = false := by
  refine ⟨?_, ?_, ?_⟩
  · intro a
    by_cases h : a = some "gamescope" <;> simp [should_enable_gamemode, h]
  · simp [GameMode.detection_methods]
  · simp [should_enable_gamemode]

theorem gamemode_ignores_steam_apps_witness :
    should_enable_gamemode (fun _ => false) (fun _ => (false, false))
      { app_id := some "steam_app_123456", pid := none } = false
    ∧ should_enable_gamemode (fun _ => false) (fun _ => (false, false))
      { app_id := some "gamescope", pid := none } = true :=
  ⟨(gamemode_ignores_steam_apps (fun _ => false)
      (fun _ => (false, false))).2.2,
   (gamemode_ignores_steam_apps (fun _ => false)
      (fun _ => (false, false))).1 (some "gamescope") |>.mpr rfl⟩

/-- C9: The partial save is a full save. `save_enabled_keyboards_only` is
extensionally identical to `save`: for every serializer, config, path and
filesystem state it produces the same updated filesystem, and in
particular the file at `path` afterwards holds the serialization of the
entire in-memory config, overwriting whatever the file held. -/
theorem save_enabled_keyboards_only_is_save (ser : Config → String)
    (c : Config) (path : String) (fs : String → Option String) :
    Config.save_enabled_keyboards_only ser c path fs =
      Config.save ser c path fs
    ∧ Config.save_enabled_keyboards_only ser c path fs path = some (ser c) := by
  constructor
  · rfl
  · simp [Config.save_enabled_keyboards_only, Config.save]

theorem save_enabled_keyboards_only_is_save_witness :
    Config.save_enabled_keyboards_only (fun _ => "serialized") sampleConfig
        "config.ron" (fun _ => none) =
      Config.save (fun _ => "serialized") sampleConfig "config.ron"
        (fun _ => none)
    ∧ Config.save_enabled_keyboards_only (fun _ => "serialized") sampleConfig
        "config.ron" (fun _ => none) "config.ron" = some "serialized" :=
  save_enabled_keyboards_only_is_save (fun _ => "serialized") sampleConfig
    "config.ron" (fun _ => none)

end KeyboardMiddleware
